import Mathlib

/-!
# Console facade (package `cons`): embedding and verified properties

The package is a set of wrappers over kernel32 console procedures.  Every
wrapper is embedded as a function over an explicit world: the state of the
operating system (of an arbitrary type `σ`, driven by an arbitrary
`Kernel32 σ`) together with the log of the calls issued so far.

Conventions of the embedding (target windows/amd64):
* `uintptr`, `Handle` are naturals below `2^64`; `DWord`, `uint32` below `2^32`;
  `uint16` below `2^16`; `int16`, `int32`, `int` are integers, and every
  operation that can overflow wraps explicitly;
* a Go `error` is `Option Errno`, `none` being the `nil` interface;
* memory behind a pointer argument is passed in and returned in the reply.
-/

namespace Cons

/-! ## Machine integers -/

/-- Value of an `int16` after wrap-around of the exact result `i`. -/
def wrap16 (i : Int) : Int := (i + 32768) % 65536 - 32768

/-- Value of an `int32` after wrap-around of the exact result `i`. -/
def wrap32 (i : Int) : Int := (i + 2147483648) % 4294967296 - 2147483648

/-- Conversion `uintptr(i)` of a signed integer on a 64-bit target. -/
def uintptr (i : Int) : Nat := (i % 18446744073709551616).toNat

/-- Conversion `DWord(f)` of an `int`: the low 32 bits. -/
def DWord (f : Int) : Nat := (f % 4294967296).toNat

/-! ## typestru_windows.go -/

abbrev Handle := Nat

structure CursorInfo where
  Size : Nat
  Visible : Bool
  deriving DecidableEq, Repr

structure Coord where
  X : Int
  Y : Int
  deriving DecidableEq, Repr

structure SmallRect where
  Left : Int
  Top : Int
  Right : Int
  Bottom : Int
  deriving DecidableEq, Repr

structure ScreenBufferInfo where
  Size : Coord
  CursorPosition : Coord
  Attributes : Nat
  Window : SmallRect
  MaximumWindowSize : Coord
  deriving DecidableEq, Repr

structure KeyEventRecord where
  KeyDown : Int
  RepeatCount : Nat
  VirtualKeyCode : Nat
  VirtualScanCode : Nat
  UnicodeChar : Nat
  ControlKeyState : Nat
  deriving DecidableEq, Repr

structure CharInfo where
  UnicodeChar : Nat
  Attributes : Nat
  deriving DecidableEq, Repr

/-- The instance `InputRecord[KeyEventRecord]`, which is also the layout of the
anonymous buffer of `Pause`: the event bytes are viewed as a key event. -/
structure InputRecord where
  EventType : Nat
  Event : KeyEventRecord
  deriving DecidableEq, Repr

/-- A `Coord` holds two `int16` fields. -/
def Coord.InRange (c : Coord) : Prop :=
  -32768 ≤ c.X ∧ c.X < 32768 ∧ -32768 ≤ c.Y ∧ c.Y < 32768

instance (c : Coord) : Decidable c.InRange := by
  unfold Coord.InRange; infer_instance

/-- Zero value `Coord{}`. -/
def Coord.zero : Coord := { X := 0, Y := 0 }

/-- Zero value `ScreenBufferInfo{}`. -/
def ScreenBufferInfo.zero : ScreenBufferInfo :=
  { Size := Coord.zero, CursorPosition := Coord.zero, Attributes := 0,
    Window := { Left := 0, Top := 0, Right := 0, Bottom := 0 },
    MaximumWindowSize := Coord.zero }

/-- Zero value `KeyEventRecord{}`. -/
def KeyEventRecord.zero : KeyEventRecord :=
  { KeyDown := 0, RepeatCount := 0, VirtualKeyCode := 0, VirtualScanCode := 0,
    UnicodeChar := 0, ControlKeyState := 0 }

/-- Zero value of the input buffer. -/
def InputRecord.zero : InputRecord := { EventType := 0, Event := KeyEventRecord.zero }

/-- Zero value `CursorInfo{}`. -/
def CursorInfo.zero : CursorInfo := { Size := 0, Visible := false }

/-- The source's `strutouintptr` at a `*Coord`: the first four bytes of the
struct (X in the low half, Y in the high half, little-endian) are read as
one `int32`, which is then converted to `uintptr`. -/
def strutouintptr (p : Coord) : Nat :=
  uintptr (wrap32 (p.X % 65536 + 65536 * (p.Y % 65536)))

/-! ## parameter_windows.go -/

abbrev Errno := Nat

/-- A Go `error`; `none` is `nil`, `some e` an interface holding `syscall.Errno(e)`. -/
abbrev GoError := Option Errno

def StdInputHandle : Nat := (4294967295 - 10 + 1) % 4294967296
def StdOutputHandle : Nat := (4294967295 - 11 + 1) % 4294967296
def StdErrorHandle : Nat := (4294967295 - 12 + 1) % 4294967296
def invalidHandle : Handle := 0

def errorSuccess : Errno := 0

def ForegroundBlue : Nat := 0x0001
def ForegroundGreen : Nat := 0x0002
def ForegroundRed : Nat := 0x0004

def KeyEvent : Nat := 0x0001
def MouseEvent : Nat := 0x0002
def WindowBufferSizeEvent : Nat := 0x0004
def MenuEvent : Nat := 0x0008
def FocusEvent : Nat := 0x0010

/-! ## The operating system -/

/-- What a procedure call leaves behind: the primary return value, the thread's
last-error code, and the contents of the memory behind its pointer arguments. -/
structure Reply (α : Type) where
  r1 : Nat
  errno : Errno
  out : α

/-- The error that `(*LazyProc).Call` returns: always a non-nil interface,
built from the last-error code, also when that code is zero. -/
def Reply.lastErr {α : Type} (r : Reply α) : GoError := some r.errno

/-- The Win32 structure CONSOLE_CURSOR_INFO: what the OS reads and writes in the
eight bytes behind a `*CursorInfo`, a DWORD followed by a four-byte BOOL. -/
structure ConsoleCursorInfo where
  dwSize : Nat
  bVisible : Nat
  deriving DecidableEq, Repr

/-- The eight bytes of a Go `CursorInfo` variable as the OS reads them.  `Size`
fills the DWORD.  The one-byte `bool` is the low byte of the BOOL; its three
upper bytes are the padding that follows the `bool` in the struct, whose
content `pad` (below `2^24`) no assignment to the variable or its fields fixes. -/
def CursorInfo.toNative (p : CursorInfo) (pad : Nat) : ConsoleCursorInfo :=
  { dwSize := p.Size, bVisible := (if p.Visible then 1 else 0) + 256 * pad }

/-- The Go value of a `CursorInfo` variable whose eight bytes the OS has written:
`Size` is the DWORD, and `Visible` is the low byte of the BOOL, true when that
byte is not zero. -/
def CursorInfo.ofNative (n : ConsoleCursorInfo) : CursorInfo :=
  { Size := n.dwSize, Visible := n.bVisible % 256 != 0 }

/-- An observable action of the package: a kernel32 procedure with the arguments
passed by value (and the data read through input pointers), or a line printed
on standard output. -/
inductive Event where
  | GetStdHandle (nStdHandle : Nat)
  | GetConsoleMode (h : Nat)
  | GetConsoleCursorInfo (h : Nat)
  | GetConsoleScreenBufferInfo (h : Nat)
  | ReadConsoleInputW (h : Nat) (length : Nat)
  | SetConsoleMode (h : Nat) (mode : Nat)
  | SetConsoleCursorPosition (h : Nat) (pos : Nat)
  | SetConsoleTitleW (title : List Nat)
  | SetConsoleCursorInfo (h : Nat) (info : ConsoleCursorInfo)
  | FillConsoleOutputCharacterW (h : Nat) (char : Nat) (length : Nat) (coord : Nat)
  | FillConsoleOutputAttribute (h : Nat) (attr : Nat) (length : Nat) (coord : Nat)
  | Println (msg : String)
  deriving DecidableEq, Repr

/-- The procedures of kernel32_windows.go as transitions of an OS state `σ`.
A pointer argument appears as the value behind it before the call; the value
behind it after the call is the `out` of the reply. -/
structure Kernel32 (σ : Type) where
  procGetStdHandle : Nat → σ → Reply Unit × σ
  procGetConsoleMode : Nat → Nat → σ → Reply Nat × σ
  procGetConsoleCursorInfo : Nat → ConsoleCursorInfo → σ → Reply ConsoleCursorInfo × σ
  procGetConsoleScrrenBufferInfo : Nat → ScreenBufferInfo → σ → Reply ScreenBufferInfo × σ
  procReadConsoleInput : Nat → InputRecord → Nat → Nat → σ → Reply (InputRecord × Nat) × σ
  procSetConsoleMode : Nat → Nat → σ → Reply Unit × σ
  procSetCursorPosition : Nat → Nat → σ → Reply Unit × σ
  procSetConsoleTitle : List Nat → σ → Reply Unit × σ
  procSetConsoleCursorInfo : Nat → ConsoleCursorInfo → σ → Reply ConsoleCursorInfo × σ
  procFillConsoleOutputCharacter : Nat → Nat → Nat → Nat → Nat → σ → Reply Nat × σ
  procFillConsoleOutputAttribute : Nat → Nat → Nat → Nat → Nat → σ → Reply Nat × σ
  stdoutPrintln : String → σ → σ

/-- The OS state and the actions issued so far, oldest first. -/
structure World (σ : Type) where
  os : σ
  log : List Event

variable {σ : Type}

/-- Issue one procedure call: record it and let the OS answer. -/
def World.call {α : Type} (ev : Event) (f : σ → Reply α × σ) (w : World σ) :
    Reply α × World σ :=
  ((f w.os).1, { os := (f w.os).2, log := w.log ++ [ev] })

/-- The standard library's `fmt.Println(msg)`; its results are ignored by the caller. -/
def Println (K : Kernel32 σ) (msg : String) (w : World σ) : World σ :=
  { os := K.stdoutPrintln msg w.os, log := w.log ++ [Event.Println msg] }

/-! ## syscall_windows.go -/

/-- Here `flag` is a `uint32`, so `uintptr(flag)` is `flag`, and `Handle(hStdHandle)`
is the returned word itself. -/
def GetStdHandle (K : Kernel32 σ) (flag : Nat) (w : World σ) : (Handle × GoError) × World σ :=
  let r := w.call (Event.GetStdHandle flag) (K.procGetStdHandle flag)
  if r.1.lastErr ≠ some errorSuccess then ((invalidHandle, r.1.lastErr), r.2)
  else ((r.1.r1, none), r.2)

def GetMode (K : Kernel32 σ) (hStdout : Handle) (w : World σ) : (Nat × GoError) × World σ :=
  let r := w.call (Event.GetConsoleMode hStdout) (K.procGetConsoleMode hStdout 0)
  if r.1.lastErr ≠ some errorSuccess then ((0, r.1.lastErr), r.2)
  else ((r.1.out, none), r.2)

/-- The variable `curinfo` is zeroed, padding included, before the OS writes its
eight bytes; the value returned is the Go reading of those bytes. -/
def GetCursorInfo (K : Kernel32 σ) (hStdout : Handle) (w : World σ) :
    (CursorInfo × GoError) × World σ :=
  let r := w.call (Event.GetConsoleCursorInfo hStdout)
    (K.procGetConsoleCursorInfo hStdout (CursorInfo.zero.toNative 0))
  if r.1.lastErr ≠ some errorSuccess then ((CursorInfo.zero, r.1.lastErr), r.2)
  else ((CursorInfo.ofNative r.1.out, none), r.2)

/-- The caller's `*p` goes in; the result carries `*p` after the call. -/
def GetScreenBufferInfo (K : Kernel32 σ) (hStdout : Handle) (p : ScreenBufferInfo)
    (w : World σ) : (ScreenBufferInfo × GoError) × World σ :=
  let r := w.call (Event.GetConsoleScreenBufferInfo hStdout)
    (K.procGetConsoleScrrenBufferInfo hStdout p)
  if r.1.lastErr ≠ some errorSuccess then ((r.1.out, r.1.lastErr), r.2)
  else ((r.1.out, none), r.2)

/-- The buffer and the counter behind the two pointers go in; the result carries
both after the call. -/
def ReadInput (K : Kernel32 σ) (hStdin : Handle) (buffer : InputRecord) (length : Nat)
    (counter : Nat) (w : World σ) : ((InputRecord × Nat) × GoError) × World σ :=
  let r := w.call (Event.ReadConsoleInputW hStdin length)
    (K.procReadConsoleInput hStdin buffer length counter)
  if r.1.lastErr ≠ some errorSuccess then ((r.1.out, r.1.lastErr), r.2)
  else ((r.1.out, none), r.2)

/-- The conversion `uintptr(mode)` of a `DWord` is the identity. -/
def SetMode (K : Kernel32 σ) (hStdout : Handle) (mode : Nat) (w : World σ) :
    GoError × World σ :=
  let r := w.call (Event.SetConsoleMode hStdout mode) (K.procSetConsoleMode hStdout mode)
  if r.1.lastErr ≠ some errorSuccess then (r.1.lastErr, r.2)
  else (none, r.2)

def SetCursorPosition (K : Kernel32 σ) (hStdout : Handle) (newpos : Coord) (w : World σ) :
    GoError × World σ :=
  let r := w.call (Event.SetConsoleCursorPosition hStdout (strutouintptr newpos))
    (K.procSetCursorPosition hStdout (strutouintptr newpos))
  if r.1.lastErr ≠ some errorSuccess then (r.1.lastErr, r.2)
  else (none, r.2)

/-- UTF-16 code units of one character, as `utf16.Encode` produces them. -/
def utf16Units (c : Char) : List Nat :=
  if c.toNat < 65536 then [c.toNat]
  else [55296 + (c.toNat - 65536) / 1024, 56320 + (c.toNat - 65536) % 1024]

/-- The standard library's `syscall.UTF16PtrFromString`: it refuses a string
with an embedded NUL with the error `EINVAL` (given as `einval`), and otherwise
yields the NUL-terminated UTF-16 text. -/
def UTF16PtrFromString (einval : Errno) (s : String) : List Nat × GoError :=
  if s.data.any (fun c => c.toNat == 0) then ([], some einval)
  else ((s.data.map utf16Units).flatten ++ [0], none)

def SetWindowTitle (K : Kernel32 σ) (einval : Errno) (title : String) (w : World σ) :
    GoError × World σ :=
  let cstr := UTF16PtrFromString einval title
  if cstr.2 ≠ none then (cstr.2, w)
  else
    let r := w.call (Event.SetConsoleTitleW cstr.1) (K.procSetConsoleTitle cstr.1)
    if r.1.lastErr ≠ none then (r.1.lastErr, r.2)
    else (none, r.2)

/-- The memory behind `p` is the value `p` together with the three padding bytes
`pad` of the variable it points to; the OS is handed all eight bytes. -/
def SetCursorInfo (K : Kernel32 σ) (hStdout : Handle) (p : CursorInfo) (pad : Nat)
    (w : World σ) : GoError × World σ :=
  let r := w.call (Event.SetConsoleCursorInfo hStdout (p.toNative pad))
    (K.procSetConsoleCursorInfo hStdout (p.toNative pad))
  if r.1.lastErr ≠ some errorSuccess then (r.1.lastErr, r.2)
  else (none, r.2)

/-- Here `char` is a `rune` and `length` an `int`; the counter is a `uint16`, which
holds the low 16 bits of the count the OS writes. -/
def FillCharacter (K : Kernel32 σ) (hStdout : Handle) (char : Int) (length : Int)
    (wcoord : Coord) (w : World σ) : (Nat × GoError) × World σ :=
  let r := w.call
    (Event.FillConsoleOutputCharacterW hStdout (uintptr char) (uintptr length)
      (strutouintptr wcoord))
    (K.procFillConsoleOutputCharacter hStdout (uintptr char) (uintptr length)
      (strutouintptr wcoord) 0)
  if r.1.lastErr ≠ some errorSuccess then ((r.1.out % 65536, r.1.lastErr), r.2)
  else ((r.1.out % 65536, none), r.2)

/-- The source's parameter `attribute` is `attr` here; the conversion
`uintptr(attribute)` of a `uint16` is the identity, and the counter is a `uint16`. -/
def FillAttribute (K : Kernel32 σ) (hStdout : Handle) (attr : Nat) (length : Int)
    (wcoord : Coord) (w : World σ) : (Nat × GoError) × World σ :=
  let r := w.call
    (Event.FillConsoleOutputAttribute hStdout attr (uintptr length)
      (strutouintptr wcoord))
    (K.procFillConsoleOutputAttribute hStdout attr (uintptr length)
      (strutouintptr wcoord) 0)
  if r.1.lastErr ≠ some errorSuccess then ((0, r.1.lastErr), r.2)
  else ((r.1.out % 65536, none), r.2)

/-! ## expand_windows.go -/

def IsValidHandle (nStdHandle : Handle) : Bool := nStdHandle != invalidHandle

/-- The method `IsEnableMode` of a `DWord` mode. -/
def DWord.IsEnableMode (mode : Nat) (flag : Int) : Bool := mode &&& DWord flag != 0

def IsEnableMode (K : Kernel32 σ) (hStdout : Handle) (flag : Int) (w : World σ) :
    Bool × World σ :=
  let r := GetMode K hStdout w
  if r.1.2 ≠ none then (false, r.2)
  else (r.1.1 &&& DWord flag != 0, r.2)

def EnableMode (K : Kernel32 σ) (hStdout : Handle) (flag : List Int) (w : World σ) :
    GoError × World σ :=
  let r := GetMode K hStdout w
  if r.1.2 ≠ none then (r.1.2, r.2)
  else SetMode K hStdout (flag.foldl (fun mode f => mode ||| DWord f) r.1.1) r.2

/-- Here `pad` is the content of the three padding bytes of the local variable
`curinfo`: the assignment of the result of `GetCursorInfo` and the assignment
to the field write the two fields only. -/
def SetCursorVisible (K : Kernel32 σ) (hStdout : Handle) (visible : Bool) (pad : Nat)
    (w : World σ) : GoError × World σ :=
  let r := GetCursorInfo K hStdout w
  if r.1.2 ≠ none then (r.1.2, r.2)
  else SetCursorInfo K hStdout { r.1.1 with Visible := visible } pad r.2

/-- Here `pad` is the content of the three padding bytes of the local variable
`curinfo`, as in `SetCursorVisible`. -/
def SetCursorSize (K : Kernel32 σ) (hStdout : Handle) (size : Nat) (pad : Nat)
    (w : World σ) : GoError × World σ :=
  let r := GetCursorInfo K hStdout w
  if r.1.2 ≠ none then (r.1.2, r.2)
  else SetCursorInfo K hStdout { r.1.1 with Size := size } pad r.2

def GetCursorPosition (K : Kernel32 σ) (hStdout : Handle) (w : World σ) :
    (Coord × GoError) × World σ :=
  let r := GetScreenBufferInfo K hStdout ScreenBufferInfo.zero w
  if r.1.2 ≠ none then ((Coord.zero, r.1.2), r.2)
  else ((r.1.1.CursorPosition, none), r.2)

def MoveCursor (K : Kernel32 σ) (hStdout : Handle) (offset : Coord) (w : World σ) :
    GoError × World σ :=
  let r := GetCursorPosition K hStdout w
  if r.1.2 ≠ none then (r.1.2, r.2)
  else
    let curpos : Coord :=
      { X := wrap16 (r.1.1.X + offset.X), Y := wrap16 (r.1.1.Y + offset.Y) }
    let e := SetCursorPosition K hStdout curpos r.2
    if e.1 ≠ none then (e.1, e.2) else (none, e.2)

def MoveCursorVert (K : Kernel32 σ) (hStdout : Handle) (offset : Int) (w : World σ) :
    GoError × World σ :=
  MoveCursor K hStdout { X := 0, Y := offset } w

def MoveCursorHorz (K : Kernel32 σ) (hStdout : Handle) (offset : Int) (w : World σ) :
    GoError × World σ :=
  MoveCursor K hStdout { X := offset, Y := 0 } w

def GetKeyValue (K : Kernel32 σ) (hStdin : Handle) (w : World σ) : (Nat × GoError) × World σ :=
  let r := ReadInput K hStdin InputRecord.zero 1 0 w
  if r.1.2 ≠ none then ((0, r.1.2), r.2)
  else if r.1.1.1.EventType = KeyEvent ∧ r.1.1.1.Event.KeyDown ≠ 0 then
    ((r.1.1.1.Event.UnicodeChar, none), r.2)
  else ((0, none), r.2)

/-- The `for` loop of `Pause`; `fuel` bounds the number of iterations, and
`none` says the bound was reached with the loop still running. -/
def Pause.loop (K : Kernel32 σ) (hStdin : Handle) :
    Nat → InputRecord → Nat → World σ → Option (GoError × World σ)
  | 0, _, _, _ => none
  | fuel + 1, buffer, counter, w =>
    let r := ReadInput K hStdin buffer 1 counter w
    if r.1.2 ≠ none then some (r.1.2, r.2)
    else if r.1.1.1.EventType = KeyEvent ∧ r.1.1.1.Event.KeyDown ≠ 0 then some (none, r.2)
    else Pause.loop K hStdin fuel r.1.1.1 r.1.1.2 r.2

def Pause (K : Kernel32 σ) (fuel : Nat) (hStdin : Handle) (msg : String) (w : World σ) :
    Option (GoError × World σ) :=
  Pause.loop K hStdin fuel InputRecord.zero 0 (if msg ≠ "" then Println K msg w else w)

def Fill (K : Kernel32 σ) (hStdout : Handle) (fill : CharInfo) (length : Int) (wcoord : Coord)
    (w : World σ) : GoError × World σ :=
  let c := FillCharacter K hStdout (fill.UnicodeChar : Int) length wcoord w
  if c.1.2 ≠ none then (c.1.2, c.2)
  else
    let a := FillAttribute K hStdout fill.Attributes length wcoord c.2
    if a.1.2 ≠ none then (a.1.2, a.2) else (none, a.2)

def ClearScreenBuffer (K : Kernel32 σ) (hStdout : Handle) (w : World σ) : GoError × World σ :=
  let r := GetScreenBufferInfo K hStdout ScreenBufferInfo.zero w
  if r.1.2 ≠ none then (r.1.2, r.2)
  else
    let length : Int := wrap16 (r.1.1.Size.X * r.1.1.Size.Y)
    let fill : CharInfo :=
      { UnicodeChar := 32, Attributes := ForegroundBlue ||| ForegroundGreen ||| ForegroundRed }
    let f := Fill K hStdout fill length Coord.zero r.2
    if f.1 ≠ none then (f.1, f.2)
    else SetCursorPosition K hStdout Coord.zero f.2

/-! ## Two operating systems to run the package on -/

/-- An OS in which every procedure answers with the same return value and the
same last-error code and touches nothing: with `errno ≠ 0` every call fails;
`constKernel 0 0` is a process that has no standard handles. -/
def constKernel (r1 : Nat) (errno : Errno) : Kernel32 Unit where
  procGetStdHandle := fun _ s => ({ r1 := r1, errno := errno, out := () }, s)
  procGetConsoleMode := fun _ m s => ({ r1 := r1, errno := errno, out := m }, s)
  procGetConsoleCursorInfo := fun _ p s => ({ r1 := r1, errno := errno, out := p }, s)
  procGetConsoleScrrenBufferInfo := fun _ p s => ({ r1 := r1, errno := errno, out := p }, s)
  procReadConsoleInput := fun _ b _ c s => ({ r1 := r1, errno := errno, out := (b, c) }, s)
  procSetConsoleMode := fun _ _ s => ({ r1 := r1, errno := errno, out := () }, s)
  procSetCursorPosition := fun _ _ s => ({ r1 := r1, errno := errno, out := () }, s)
  procSetConsoleTitle := fun _ s => ({ r1 := r1, errno := errno, out := () }, s)
  procSetConsoleCursorInfo := fun _ p s => ({ r1 := r1, errno := errno, out := p }, s)
  procFillConsoleOutputCharacter := fun _ _ _ _ c s => ({ r1 := r1, errno := errno, out := c }, s)
  procFillConsoleOutputAttribute := fun _ _ _ _ c s => ({ r1 := r1, errno := errno, out := c }, s)
  stdoutPrintln := fun _ s => s

/-- A console that stores what it is given; it takes a BOOL that is not zero as
true.  `chars` and `attrs` are the cells of
the screen buffer, row by row; `input` is the sequence of answers that
ReadConsoleInputW will give (a record and a last-error code each), of which
`readPos` have been delivered. -/
structure Console where
  mode : Nat
  curinfo : CursorInfo
  info : ScreenBufferInfo
  chars : List Nat
  attrs : List Nat
  input : Nat → InputRecord × Errno
  readPos : Nat
  title : List Nat
  stdout : List String

/-- The coordinate that a console reads from a COORD passed by value: the low
16 bits are X, the next 16 bits are Y, both signed. -/
def coordOfWord (word : Nat) : Coord :=
  { X := wrap16 ((word % 65536 : Nat) : Int), Y := wrap16 ((word / 65536 % 65536 : Nat) : Int) }

/-- Overwrite `len` cells of `cells` with `v`, from index `start`, stopping at the end. -/
def fillCells (cells : List Nat) (start len v : Nat) : List Nat :=
  cells.take start ++ List.replicate (min len (cells.length - start)) v ++
    cells.drop (start + len)

/-- Index of the cell at `c` in a buffer of the given width. -/
def cellIndex (width : Int) (c : Coord) : Nat := (c.Y * width + c.X).toNat

/-- The storing console: every procedure succeeds, except that a read fails when
the input sequence says so. -/
def consoleKernel : Kernel32 Console where
  procGetStdHandle := fun flag s =>
    if flag = StdInputHandle then ({ r1 := 3, errno := 0, out := () }, s)
    else if flag = StdOutputHandle then ({ r1 := 7, errno := 0, out := () }, s)
    else if flag = StdErrorHandle then ({ r1 := 11, errno := 0, out := () }, s)
    else ({ r1 := 18446744073709551615, errno := 6, out := () }, s)
  procGetConsoleMode := fun _ _ s => ({ r1 := 1, errno := 0, out := s.mode }, s)
  procGetConsoleCursorInfo := fun _ _ s =>
    ({ r1 := 1, errno := 0,
       out := { dwSize := s.curinfo.Size, bVisible := if s.curinfo.Visible then 1 else 0 } }, s)
  procGetConsoleScrrenBufferInfo := fun _ _ s => ({ r1 := 1, errno := 0, out := s.info }, s)
  procReadConsoleInput := fun _ b _ c s =>
    if (s.input s.readPos).2 = 0 then
      ({ r1 := 1, errno := 0, out := ((s.input s.readPos).1, 1) },
        { s with readPos := s.readPos + 1 })
    else
      ({ r1 := 0, errno := (s.input s.readPos).2, out := (b, c) },
        { s with readPos := s.readPos + 1 })
  procSetConsoleMode := fun _ mode s => ({ r1 := 1, errno := 0, out := () }, { s with mode := mode })
  procSetCursorPosition := fun _ pos s =>
    ({ r1 := 1, errno := 0, out := () },
      { s with info := { s.info with CursorPosition := coordOfWord pos } })
  procSetConsoleTitle := fun t s => ({ r1 := 1, errno := 0, out := () }, { s with title := t })
  procSetConsoleCursorInfo := fun _ p s =>
    ({ r1 := 1, errno := 0, out := p },
      { s with curinfo := { Size := p.dwSize, Visible := p.bVisible != 0 } })
  procFillConsoleOutputCharacter := fun _ char len coord _ s =>
    ({ r1 := 1, errno := 0,
       out := min len (s.chars.length - cellIndex s.info.Size.X (coordOfWord coord)) },
      { s with chars :=
          fillCells s.chars (cellIndex s.info.Size.X (coordOfWord coord)) len (char % 65536) })
  procFillConsoleOutputAttribute := fun _ attr len coord _ s =>
    ({ r1 := 1, errno := 0,
       out := min len (s.attrs.length - cellIndex s.info.Size.X (coordOfWord coord)) },
      { s with attrs :=
          fillCells s.attrs (cellIndex s.info.Size.X (coordOfWord coord)) len (attr % 65536) })
  stdoutPrintln := fun msg s => { s with stdout := s.stdout ++ [msg] }

/-- A console with a buffer of `width × height` blank cells, the cursor at `cursor`
and the given input sequence. -/
def Console.blank (width height : Int) (cursor : Coord) (input : Nat → InputRecord × Errno) :
    Console :=
  { mode := 7, curinfo := { Size := 25, Visible := true },
    info := { ScreenBufferInfo.zero with
      Size := { X := width, Y := height }, CursorPosition := cursor, Attributes := 7 },
    chars := List.replicate (width * height).toNat 32,
    attrs := List.replicate (width * height).toNat 7,
    input := input, readPos := 0, title := [], stdout := [] }

/-- An input record for a key event. -/
def keyRecord (keyDown : Int) (unicodeChar : Nat) : InputRecord :=
  { EventType := KeyEvent, Event := { KeyEventRecord.zero with KeyDown := keyDown, UnicodeChar := unicodeChar } }

/-- An input record of another kind; its event bytes are not a key event. -/
def otherRecord (eventType : Nat) : InputRecord :=
  { EventType := eventType, Event := { KeyEventRecord.zero with KeyDown := 1 } }

/-! ## Notions used in the statements -/

/-- An idle input sequence: mouse events only. -/
def idleInput : Nat → InputRecord × Errno := fun _ => (otherRecord MouseEvent, 0)

/-- The loop of `EnableMode`: the mode after all flags have been or-ed in. -/
def enabledMode (m : Nat) (fs : List Int) : Nat :=
  fs.foldl (fun mode f => mode ||| DWord f) m

/-- The cursor position after `MoveCursor` on the storing console. -/
def movedCursor (pos offset : Coord) : Coord :=
  { X := wrap16 (pos.X + offset.X), Y := wrap16 (pos.Y + offset.Y) }

/-- The test both `GetKeyValue` and `Pause` apply to the record in their buffer. -/
def isKeyDown (r : InputRecord) : Prop := r.EventType = KeyEvent ∧ r.Event.KeyDown ≠ 0

instance (r : InputRecord) : Decidable (isKeyDown r) := by
  unfold isKeyDown; infer_instance

/-- The world of the storing console after `n` more reads of one record on `h`. -/
def afterReads (h : Handle) (n : Nat) (w : World Console) : World Console :=
  { os := { w.os with readPos := w.os.readPos + n },
    log := w.log ++ List.replicate n (Event.ReadConsoleInputW h 1) }

/-- The answer of the storing console to a read at position `readPos + i` is a
successful delivery of a record that is not a key-down record. -/
def skipped (w : World Console) (i : Nat) : Prop :=
  (w.os.input (w.os.readPos + i)).2 = 0 ∧ ¬ isKeyDown (w.os.input (w.os.readPos + i)).1

instance (w : World Console) (i : Nat) : Decidable (skipped w i) := by
  unfold skipped; infer_instance

/-- The world of the storing console in which `Pause` starts to read: the
message, when there is one, has been printed once. -/
def pauseStart (msg : String) (c : World Console) : World Console :=
  { os := { c.os with stdout := c.os.stdout ++ (if msg = "" then [] else [msg]) },
    log := c.log ++ (if msg = "" then [] else [Event.Println msg]) }

/-- An input sequence with a window-resize event, a key release and then the key press `A`. -/
def sampleInput : Nat → InputRecord × Errno := fun i =>
  if i = 0 then (otherRecord WindowBufferSizeEvent, 0)
  else if i = 1 then (keyRecord 0 65, 0)
  else (keyRecord 1 65, 0)

/-- The storing console with a character fill that is refused with the
last-error code `e` and writes nothing. -/
def refusingCharFill (e : Errno) : Kernel32 Console :=
  { consoleKernel with
    procFillConsoleOutputCharacter := fun _ _ _ _ cnt s => ({ r1 := 0, errno := e, out := cnt }, s) }

/-- The two bytes that hold an `int16` in memory, low byte first, in two's complement. -/
def int16Bytes (i : Int) : List Nat := [(i % 256).toNat, (i / 256 % 256).toNat]

/-- The memory of a `Coord`: the field X and then the field Y, without padding. -/
def Coord.bytes (c : Coord) : List Nat := int16Bytes c.X ++ int16Bytes c.Y

/-- The `int32` that four bytes of memory hold, low byte first: the read
`*(*int32)(unsafe.Pointer(p))`. -/
def int32OfBytes : List Nat → Int
  | [b0, b1, b2, b3] => wrap32 ((b0 : Int) + 256 * b1 + 65536 * b2 + 16777216 * b3)
  | _ => 0

/-! ## Theorems -/

/-! ## ClearScreenBuffer -/

/-- When the three kinds of OS call involved succeed, `ClearScreenBuffer` issues
four calls: the query, a character fill and an attribute fill of
`uintptr(int(int16(X*Y)))` cells from the origin, and the cursor reset. -/
theorem ClearScreenBuffer_log (K : Kernel32 σ) (h : Handle) (w : World σ)
    (hall : ∀ s : σ,
      (K.procGetConsoleScrrenBufferInfo h ScreenBufferInfo.zero s).1.errno = 0 ∧
      (∀ a b c, (K.procFillConsoleOutputCharacter h a b c 0 s).1.errno = 0) ∧
      (∀ a b c, (K.procFillConsoleOutputAttribute h a b c 0 s).1.errno = 0) ∧
      (∀ a, (K.procSetCursorPosition h a s).1.errno = 0)) :
    (ClearScreenBuffer K h w).1 = none ∧
    (ClearScreenBuffer K h w).2.log = w.log ++
      [Event.GetConsoleScreenBufferInfo h,
       Event.FillConsoleOutputCharacterW h 32
         (uintptr (wrap16 ((K.procGetConsoleScrrenBufferInfo h ScreenBufferInfo.zero w.os).1.out.Size.X *
           (K.procGetConsoleScrrenBufferInfo h ScreenBufferInfo.zero w.os).1.out.Size.Y))) 0,
       Event.FillConsoleOutputAttribute h 7
         (uintptr (wrap16 ((K.procGetConsoleScrrenBufferInfo h ScreenBufferInfo.zero w.os).1.out.Size.X *
           (K.procGetConsoleScrrenBufferInfo h ScreenBufferInfo.zero w.os).1.out.Size.Y))) 0,
       Event.SetConsoleCursorPosition h 0] := by
  have h1 := fun s => (hall s).1
  have h2 := fun s => (hall s).2.1
  have h3 := fun s => (hall s).2.2.1
  have h4 := fun s => (hall s).2.2.2
  have hz : strutouintptr Coord.zero = 0 := by decide
  have h7 : ForegroundBlue ||| ForegroundGreen ||| ForegroundRed = 7 := by decide
  have h32 : uintptr 32 = 32 := by decide
  simp [ClearScreenBuffer, Fill, FillCharacter, FillAttribute, GetScreenBufferInfo,
    SetCursorPosition, World.call, Reply.lastErr, errorSuccess, h1, h2, h3, h4, hz, h7, h32]

/-- The cell count that `ClearScreenBuffer` passes is the product of the two
sizes as long as that product fits an `int16`. -/
theorem uintptr_wrap16_mul_of_small (x y : Int) (h0 : 0 ≤ x * y) (h1 : x * y < 32768) :
    ((uintptr (wrap16 (x * y)) : Nat) : Int) = x * y := by
  generalize x * y = p at h0 h1
  simp only [uintptr, wrap16]
  omega

/-- C1 (the code at the failing input): on a console whose screen buffer is
120 columns by 9001 rows, with every call succeeding, `ClearScreenBuffer`
returns nil after asking for fills of 31544 cells, while the buffer has
120 × 9001 = 1080120 cells: the product is taken in `int16` and wraps before
it is widened to `int`. -/
theorem ClearScreenBuffer_cell_count_wraps :
    (ClearScreenBuffer consoleKernel 7
      { os := Console.blank 120 9001 Coord.zero idleInput, log := [] }).1 = none ∧
    (ClearScreenBuffer consoleKernel 7
      { os := Console.blank 120 9001 Coord.zero idleInput, log := [] }).2.log =
      [Event.GetConsoleScreenBufferInfo 7,
       Event.FillConsoleOutputCharacterW 7 32 31544 0,
       Event.FillConsoleOutputAttribute 7 7 31544 0,
       Event.SetConsoleCursorPosition 7 0] ∧
    (Console.blank 120 9001 Coord.zero idleInput).info.Size.X *
      (Console.blank 120 9001 Coord.zero idleInput).info.Size.Y = 1080120 := by
  refine ⟨by rfl, by rfl, by rfl⟩

/-! ## GetStdHandle -/

/-- C2 (counterexample): in a process without standard handles the OS call
returns the handle value 0 and the success code; `GetStdHandle` then returns a
nil error together with a handle that `IsValidHandle` rejects. -/
theorem GetStdHandle_nil_error_invalid_handle :
    (GetStdHandle (constKernel 0 0) StdOutputHandle { os := (), log := [] }).1.2 = none ∧
    IsValidHandle
      (GetStdHandle (constKernel 0 0) StdOutputHandle { os := (), log := [] }).1.1 = false := by
  decide

/-- C2 (amended): `GetStdHandle` decides on the status code alone.  It returns
`(invalidHandle, err)` when the code is not the success code, and the value the
OS returned with a nil error when it is; so the error is nil exactly when the
code is the success code, and the returned handle is valid exactly when the code
is the success code and the OS returned a non-zero value. -/
theorem GetStdHandle_spec (K : Kernel32 σ) (flag : Nat) (w : World σ) :
    (GetStdHandle K flag w).1 =
      (if (K.procGetStdHandle flag w.os).1.errno = errorSuccess
        then ((K.procGetStdHandle flag w.os).1.r1, none)
        else (invalidHandle, some (K.procGetStdHandle flag w.os).1.errno)) ∧
    ((GetStdHandle K flag w).1.2 = none ↔
      (K.procGetStdHandle flag w.os).1.errno = errorSuccess) ∧
    (IsValidHandle (GetStdHandle K flag w).1.1 = true ↔
      ((K.procGetStdHandle flag w.os).1.errno = errorSuccess ∧
        (K.procGetStdHandle flag w.os).1.r1 ≠ invalidHandle)) ∧
    (GetStdHandle K flag w).2.log = w.log ++ [Event.GetStdHandle flag] := by
  by_cases he : (K.procGetStdHandle flag w.os).1.errno = 0
  · simp [GetStdHandle, World.call, Reply.lastErr, errorSuccess, IsValidHandle, he]
  · simp [GetStdHandle, World.call, Reply.lastErr, errorSuccess, IsValidHandle, he,
      invalidHandle]

/-! ## SetWindowTitle -/

/-- C3 (the code on every input): `SetWindowTitle` never returns nil.  For a
title with an embedded NUL it returns the conversion error; for any other title
it returns the error value of the procedure call, which is a non-nil interface
also when the status code is the success code 0, because the result is compared
with nil and not with `errorSuccess`. -/
theorem SetWindowTitle_never_nil (K : Kernel32 σ) (einval : Errno) (title : String)
    (w : World σ) :
    (SetWindowTitle K einval title w).1 ≠ none ∧
    (SetWindowTitle K einval title w).1 =
      (if title.data.any (fun c => c.toNat == 0) then some einval
       else some (K.procSetConsoleTitle
         ((title.data.map utf16Units).flatten ++ [0]) w.os).1.errno) ∧
    (SetWindowTitle consoleKernel einval "x"
      { os := Console.blank 80 25 Coord.zero idleInput, log := [] }).1 = some errorSuccess := by
  refine ⟨?_, ?_, by rfl⟩
  · by_cases hn : title.data.any (fun c => c.toNat == 0) = true
    · simp [SetWindowTitle, UTF16PtrFromString, hn]
    · simp [SetWindowTitle, UTF16PtrFromString, hn, World.call, Reply.lastErr]
  · by_cases hn : title.data.any (fun c => c.toNat == 0) = true
    · simp [SetWindowTitle, UTF16PtrFromString, hn]
    · simp [SetWindowTitle, UTF16PtrFromString, hn, World.call, Reply.lastErr]

/-! ## EnableMode -/

theorem testBit_enabledMode (fs : List Int) (m i : Nat) :
    (enabledMode m fs).testBit i = (m.testBit i || fs.any (fun f => (DWord f).testBit i)) := by
  induction fs generalizing m with
  | nil => simp [enabledMode]
  | cons f fs ih =>
    have := ih (m ||| DWord f)
    simp only [enabledMode, List.foldl_cons, List.any_cons] at this ⊢
    rw [this, Nat.testBit_or, Bool.or_assoc]

theorem enabledMode_perm {fs fs' : List Int} (hp : fs.Perm fs') (m : Nat) :
    enabledMode m fs = enabledMode m fs' := by
  apply Nat.eq_of_testBit_eq
  intro i
  rw [testBit_enabledMode, testBit_enabledMode]
  congr 1
  rw [Bool.eq_iff_iff]
  simp only [List.any_eq_true]
  constructor
  · rintro ⟨f, hf, hb⟩
    exact ⟨f, hp.mem_iff.mp hf, hb⟩
  · rintro ⟨f, hf, hb⟩
    exact ⟨f, hp.mem_iff.mpr hf, hb⟩

theorem and_enabledMode (fs : List Int) (m : Nat) : m &&& enabledMode m fs = m := by
  apply Nat.eq_of_testBit_eq
  intro i
  rw [Nat.testBit_and, testBit_enabledMode]
  cases m.testBit i <;> simp

theorem or_of_and_eq {m d : Nat} (hd : m &&& d = d) : m ||| d = m := by
  apply Nat.eq_of_testBit_eq
  intro i
  have hi : (m &&& d).testBit i = d.testBit i := by rw [hd]
  rw [Nat.testBit_and] at hi
  rw [Nat.testBit_or]
  cases hm : m.testBit i <;> cases hdi : d.testBit i <;> simp_all

theorem enabledMode_idem (fs : List Int) (m : Nat) :
    enabledMode (enabledMode m fs) fs = enabledMode m fs := by
  apply Nat.eq_of_testBit_eq
  intro i
  rw [testBit_enabledMode, testBit_enabledMode]
  cases m.testBit i <;> cases fs.any (fun f => (DWord f).testBit i) <;> rfl

/-- What `EnableMode` does when the read succeeds: it issues the read and one
write of the or-ed mode, and returns what the write returns. -/
theorem EnableMode_of_read (K : Kernel32 σ) (h : Handle) (fs : List Int) (w : World σ)
    (hget : (K.procGetConsoleMode h 0 w.os).1.errno = errorSuccess) :
    EnableMode K h fs w =
      SetMode K h (enabledMode (K.procGetConsoleMode h 0 w.os).1.out fs)
        { os := (K.procGetConsoleMode h 0 w.os).2, log := w.log ++ [Event.GetConsoleMode h] } := by
  simp only [errorSuccess] at hget
  simp [EnableMode, GetMode, World.call, Reply.lastErr, errorSuccess, hget, enabledMode]

theorem SetMode_log (K : Kernel32 σ) (h : Handle) (m : Nat) (w : World σ) :
    (SetMode K h m w).2 =
      { os := (K.procSetConsoleMode h m w.os).2, log := w.log ++ [Event.SetConsoleMode h m] } ∧
    ((SetMode K h m w).1 = none ↔ (K.procSetConsoleMode h m w.os).1.errno = errorSuccess) := by
  by_cases he : (K.procSetConsoleMode h m w.os).1.errno = 0 <;>
    simp [SetMode, World.call, Reply.lastErr, errorSuccess, he]

/-- On the storing console `EnableMode` returns nil and stores the or-ed mode. -/
theorem EnableMode_console (h : Handle) (fs : List Int) (w : World Console) :
    (EnableMode consoleKernel h fs w).1 = none ∧
    (EnableMode consoleKernel h fs w).2.os = { w.os with mode := enabledMode w.os.mode fs } := by
  simp [EnableMode, GetMode, SetMode, World.call, Reply.lastErr, errorSuccess, enabledMode,
    consoleKernel]

/-- C4: EnableMode is idempotent.  When the mode `m` that the read delivers has
every bit of `DWord(f)` set and both calls succeed, `EnableMode(h, f)` returns
nil and writes back exactly `m`; and on a console that stores the mode it is
given, `EnableMode(h, fs...)` twice in a row leaves the console as one call does. -/
theorem EnableMode_idempotent (K : Kernel32 σ) (h : Handle) (f : Int) (w : World σ)
    (hget : (K.procGetConsoleMode h 0 w.os).1.errno = errorSuccess)
    (hset : (K.procSetConsoleMode h (K.procGetConsoleMode h 0 w.os).1.out
      (K.procGetConsoleMode h 0 w.os).2).1.errno = errorSuccess)
    (hbits : (K.procGetConsoleMode h 0 w.os).1.out &&& DWord f = DWord f) :
    (EnableMode K h [f] w).1 = none ∧
    (EnableMode K h [f] w).2.log = w.log ++
      [Event.GetConsoleMode h, Event.SetConsoleMode h (K.procGetConsoleMode h 0 w.os).1.out] ∧
    ∀ (c : World Console) (fs : List Int),
      (EnableMode consoleKernel h fs (EnableMode consoleKernel h fs c).2).2.os =
        (EnableMode consoleKernel h fs c).2.os ∧
      (EnableMode consoleKernel h fs c).2.os.mode = enabledMode c.os.mode fs := by
  have hm : enabledMode (K.procGetConsoleMode h 0 w.os).1.out [f] =
      (K.procGetConsoleMode h 0 w.os).1.out := by
    simpa [enabledMode] using or_of_and_eq hbits
  refine ⟨?_, ?_, ?_⟩
  · rw [EnableMode_of_read K h [f] w hget, hm]
    exact (SetMode_log K h _ _).2.mpr hset
  · rw [EnableMode_of_read K h [f] w hget, hm, (SetMode_log K h _ _).1]
    simp
  · intro c fs
    rw [(EnableMode_console h fs _).2, (EnableMode_console h fs c).2]
    simp [enabledMode_idem]

/-- C4 (witness): the console holds mode 7 and the flag is 4. -/
theorem EnableMode_idempotent_witness :
    (7 : Nat) &&& DWord 4 = DWord 4 ∧
    (EnableMode consoleKernel 7 [4]
      { os := Console.blank 80 25 Coord.zero idleInput, log := [] }).1 = none ∧
    (EnableMode consoleKernel 7 [4]
      { os := Console.blank 80 25 Coord.zero idleInput, log := [] }).2.log =
      [Event.GetConsoleMode 7, Event.SetConsoleMode 7 7] :=
  ⟨by decide,
   (EnableMode_idempotent consoleKernel 7 4
      { os := Console.blank 80 25 Coord.zero idleInput, log := [] }
      (by rfl) (by rfl) (by decide)).1,
   (EnableMode_idempotent consoleKernel 7 4
      { os := Console.blank 80 25 Coord.zero idleInput, log := [] }
      (by rfl) (by rfl) (by decide)).2.1⟩

/-- C5: when the read delivers the mode `m` and both calls succeed,
`EnableMode(h, fs...)` returns nil and writes one mode, whose bit `i` is set
exactly when bit `i` of `m` or of `DWord(f)` for some `f` in `fs` is set; every
bit of `m` is still set in it, and any reordering of the flags writes the same. -/
theorem EnableMode_writes_or (K : Kernel32 σ) (h : Handle) (fs : List Int) (w : World σ)
    (hget : (K.procGetConsoleMode h 0 w.os).1.errno = errorSuccess)
    (hset : (K.procSetConsoleMode h (enabledMode (K.procGetConsoleMode h 0 w.os).1.out fs)
      (K.procGetConsoleMode h 0 w.os).2).1.errno = errorSuccess) :
    (EnableMode K h fs w).1 = none ∧
    (EnableMode K h fs w).2.log = w.log ++
      [Event.GetConsoleMode h,
       Event.SetConsoleMode h (enabledMode (K.procGetConsoleMode h 0 w.os).1.out fs)] ∧
    (∀ i, (enabledMode (K.procGetConsoleMode h 0 w.os).1.out fs).testBit i =
      ((K.procGetConsoleMode h 0 w.os).1.out.testBit i ||
        fs.any (fun f => (DWord f).testBit i))) ∧
    (K.procGetConsoleMode h 0 w.os).1.out &&&
      enabledMode (K.procGetConsoleMode h 0 w.os).1.out fs =
        (K.procGetConsoleMode h 0 w.os).1.out ∧
    ∀ fs2 : List Int, fs.Perm fs2 → EnableMode K h fs2 w = EnableMode K h fs w := by
  refine ⟨?_, ?_, fun i => testBit_enabledMode fs _ i, and_enabledMode fs _, ?_⟩
  · rw [EnableMode_of_read K h fs w hget]
    exact (SetMode_log K h _ _).2.mpr hset
  · rw [EnableMode_of_read K h fs w hget, (SetMode_log K h _ _).1]
    simp
  · intro fs2 hp
    rw [EnableMode_of_read K h fs w hget, EnableMode_of_read K h fs2 w hget,
      enabledMode_perm hp]

/-- C5 (witness): mode 7 with the flags 0x0200 and -4294967280 (which truncates to 0x10)
gives 0x217. -/
theorem EnableMode_writes_or_witness :
    (EnableMode consoleKernel 7 [512, -4294967280]
      { os := Console.blank 80 25 Coord.zero idleInput, log := [] }).2.log =
      [Event.GetConsoleMode 7, Event.SetConsoleMode 7 535] := by
  have hw := (EnableMode_writes_or consoleKernel 7 [512, -4294967280]
    { os := Console.blank 80 25 Coord.zero idleInput, log := [] } (by rfl) (by rfl)).2.1
  exact hw

/-! ## MoveCursor -/

theorem wrap16_inRange (i j : Int) : Coord.InRange { X := wrap16 i, Y := wrap16 j } := by
  simp only [Coord.InRange, wrap16]
  omega

/-- The storing console recovers a coordinate from the word it is passed as. -/
theorem coordOfWord_strutouintptr (c : Coord) (hc : c.InRange) :
    coordOfWord (strutouintptr c) = c := by
  obtain ⟨x, y⟩ := c
  simp only [Coord.InRange] at hc
  simp only [coordOfWord, strutouintptr, uintptr, wrap32, wrap16, Coord.mk.injEq]
  constructor <;> omega

theorem wrap16_add_assoc (x a c : Int) :
    wrap16 (wrap16 (x + a) + c) = wrap16 (x + wrap16 (a + c)) := by
  simp only [wrap16]
  omega

/-- `MoveCursor` on the storing console: nil, two calls, and the new position. -/
theorem MoveCursor_console (h : Handle) (offset : Coord) (w : World Console) :
    MoveCursor consoleKernel h offset w =
      (none,
       { os := { w.os with info := { w.os.info with
                   CursorPosition := movedCursor w.os.info.CursorPosition offset } },
         log := w.log ++ [Event.GetConsoleScreenBufferInfo h,
           Event.SetConsoleCursorPosition h
             (strutouintptr (movedCursor w.os.info.CursorPosition offset))] }) := by
  have hr := coordOfWord_strutouintptr _
    (wrap16_inRange (w.os.info.CursorPosition.X + offset.X)
      (w.os.info.CursorPosition.Y + offset.Y))
  simp [MoveCursor, GetCursorPosition, GetScreenBufferInfo, SetCursorPosition, World.call,
    Reply.lastErr, errorSuccess, consoleKernel, movedCursor, hr]

/-- C6: on a console that stores the position it is given and answers every
call with success, `MoveCursor(h, (a,b))` followed by `MoveCursor(h, (c,d))`
returns nil twice and leaves the console, and so its cursor, exactly as one
`MoveCursor(h, (a+c, b+d))` does, the sums being taken in wrapping `int16`;
the cursor ends at the start position plus both offsets, wrapped. -/
theorem MoveCursor_compose (h : Handle) (w : World Console) (a b c d : Int) :
    (MoveCursor consoleKernel h { X := a, Y := b } w).1 = none ∧
    (MoveCursor consoleKernel h { X := c, Y := d }
      (MoveCursor consoleKernel h { X := a, Y := b } w).2).1 = none ∧
    (MoveCursor consoleKernel h { X := wrap16 (a + c), Y := wrap16 (b + d) } w).1 = none ∧
    (MoveCursor consoleKernel h { X := c, Y := d }
      (MoveCursor consoleKernel h { X := a, Y := b } w).2).2.os =
      (MoveCursor consoleKernel h { X := wrap16 (a + c), Y := wrap16 (b + d) } w).2.os ∧
    (MoveCursor consoleKernel h { X := c, Y := d }
      (MoveCursor consoleKernel h { X := a, Y := b } w).2).2.os.info.CursorPosition =
      { X := wrap16 (w.os.info.CursorPosition.X + a + c),
        Y := wrap16 (w.os.info.CursorPosition.Y + b + d) } := by
  have hx := wrap16_add_assoc w.os.info.CursorPosition.X a c
  have hy := wrap16_add_assoc w.os.info.CursorPosition.Y b d
  have hx2 : wrap16 (wrap16 (w.os.info.CursorPosition.X + a) + c) =
      wrap16 (w.os.info.CursorPosition.X + a + c) := by
    simp only [wrap16]; omega
  have hy2 : wrap16 (wrap16 (w.os.info.CursorPosition.Y + b) + d) =
      wrap16 (w.os.info.CursorPosition.Y + b + d) := by
    simp only [wrap16]; omega
  simp only [MoveCursor_console, movedCursor]
  refine ⟨trivial, trivial, trivial, ?_, ?_⟩
  · simp only [hx, hy]
  · simp only [hx2, hy2]

/-! ## GetKeyValue -/

/-- A read on the storing console: it delivers the next answer of the input sequence. -/
theorem ReadInput_console (h : Handle) (buf : InputRecord) (len cnt : Nat) (w : World Console) :
    ReadInput consoleKernel h buf len cnt w =
      ((if (w.os.input w.os.readPos).2 = 0 then (((w.os.input w.os.readPos).1, 1), none)
        else ((buf, cnt), some (w.os.input w.os.readPos).2)),
       { os := { w.os with readPos := w.os.readPos + 1 },
         log := w.log ++ [Event.ReadConsoleInputW h len] }) := by
  by_cases he : (w.os.input w.os.readPos).2 = 0 <;>
    simp [ReadInput, World.call, Reply.lastErr, errorSuccess, consoleKernel, he]

/-- C7: `GetKeyValue` issues exactly one read, of one record, into a zeroed
buffer.  If the read fails it returns 0 and that error; otherwise it returns
nil, with the UnicodeChar of the record in the buffer when that record is a key
event with KeyDown ≠ 0, and with 0 for every other record.  On the storing
console exactly one record of the input sequence is consumed, and a key-down
record carrying 0x0041 yields 0x0041. -/
theorem GetKeyValue_spec (K : Kernel32 σ) (h : Handle) (w : World σ) :
    (GetKeyValue K h w).1 =
      (if (K.procReadConsoleInput h InputRecord.zero 1 0 w.os).1.errno ≠ errorSuccess then
        (0, some (K.procReadConsoleInput h InputRecord.zero 1 0 w.os).1.errno)
       else if (K.procReadConsoleInput h InputRecord.zero 1 0 w.os).1.out.1.EventType = KeyEvent ∧
          (K.procReadConsoleInput h InputRecord.zero 1 0 w.os).1.out.1.Event.KeyDown ≠ 0 then
        ((K.procReadConsoleInput h InputRecord.zero 1 0 w.os).1.out.1.Event.UnicodeChar, none)
       else (0, none)) ∧
    (GetKeyValue K h w).2 =
      { os := (K.procReadConsoleInput h InputRecord.zero 1 0 w.os).2,
        log := w.log ++ [Event.ReadConsoleInputW h 1] } ∧
    (∀ c : World Console,
      (GetKeyValue consoleKernel h c).2.os.readPos = c.os.readPos + 1 ∧
      (GetKeyValue consoleKernel h c).1 =
        (if (c.os.input c.os.readPos).2 ≠ 0 then (0, some (c.os.input c.os.readPos).2)
         else if isKeyDown (c.os.input c.os.readPos).1 then
           ((c.os.input c.os.readPos).1.Event.UnicodeChar, none)
         else (0, none))) ∧
    (GetKeyValue consoleKernel h
      { os := Console.blank 80 25 Coord.zero (fun _ => (keyRecord 1 65, 0)), log := [] }).1 =
      (65, none) := by
  refine ⟨?_, ?_, ?_, by rfl⟩
  · simp only [GetKeyValue, ReadInput, World.call, Reply.lastErr, errorSuccess]
    split_ifs <;> simp_all
  · simp only [GetKeyValue, ReadInput, World.call, Reply.lastErr, errorSuccess]
    split_ifs <;> simp_all
  · intro c
    simp only [GetKeyValue, ReadInput_console, isKeyDown]
    by_cases he : (c.os.input c.os.readPos).2 = 0
    · simp only [he]
      split_ifs <;> simp_all
    · simp only [he]
      split_ifs <;> simp_all

/-! ## Pause -/

theorem afterReads_zero (h : Handle) (w : World Console) : afterReads h 0 w = w := by
  simp [afterReads]

theorem afterReads_succ (h : Handle) (n : Nat) (w : World Console) :
    afterReads h n (afterReads h 1 w) = afterReads h (n + 1) w := by
  simp only [afterReads, List.replicate_succ, List.replicate_zero, List.append_assoc,
    List.singleton_append, World.mk.injEq, and_true]
  congr 1
  omega

theorem Pause_loop_hit (h : Handle) (fuel : Nat) (buf : InputRecord) (cnt : Nat)
    (w : World Console) (he : (w.os.input w.os.readPos).2 = 0)
    (hk : isKeyDown (w.os.input w.os.readPos).1) :
    Pause.loop consoleKernel h (fuel + 1) buf cnt w = some (none, afterReads h 1 w) := by
  have hk1 := hk.1
  have hk2 := hk.2
  simp [Pause.loop, ReadInput_console, he, hk1, hk2, afterReads]

theorem Pause_loop_err (h : Handle) (fuel : Nat) (buf : InputRecord) (cnt : Nat)
    (w : World Console) (he : (w.os.input w.os.readPos).2 ≠ 0) :
    Pause.loop consoleKernel h (fuel + 1) buf cnt w =
      some (some (w.os.input w.os.readPos).2, afterReads h 1 w) := by
  simp [Pause.loop, ReadInput_console, he, afterReads]

theorem Pause_loop_step (h : Handle) (fuel : Nat) (buf : InputRecord) (cnt : Nat)
    (w : World Console) (hs : skipped w 0) :
    Pause.loop consoleKernel h (fuel + 1) buf cnt w =
      Pause.loop consoleKernel h fuel (w.os.input w.os.readPos).1 1 (afterReads h 1 w) := by
  have he : (w.os.input w.os.readPos).2 = 0 := hs.1
  have hk : ¬ ((w.os.input w.os.readPos).1.EventType = KeyEvent ∧
      (w.os.input w.os.readPos).1.Event.KeyDown ≠ 0) := hs.2
  rw [Pause.loop]
  simp only [ReadInput_console, he, if_true, ne_eq, not_true_eq_false, if_false, hk]
  rfl

theorem Pause_loop_skip (h : Handle) (fuel : Nat) :
    ∀ (n : Nat) (buf : InputRecord) (cnt : Nat) (w : World Console),
      (∀ i, i < n → skipped w i) →
      ∃ buf2 cnt2, Pause.loop consoleKernel h (n + fuel) buf cnt w =
        Pause.loop consoleKernel h fuel buf2 cnt2 (afterReads h n w) := by
  intro n
  induction n with
  | zero =>
    intro buf cnt w _
    exact ⟨buf, cnt, by rw [afterReads_zero, Nat.zero_add]⟩
  | succ n ih =>
    intro buf cnt w hs
    have h0 : skipped w 0 := hs 0 (Nat.succ_pos n)
    have hrest : ∀ i, i < n → skipped (afterReads h 1 w) i := by
      intro i hi
      have := hs (i + 1) (Nat.succ_lt_succ hi)
      simpa [skipped, afterReads, Nat.add_assoc, Nat.add_comm 1 i] using this
    obtain ⟨buf2, cnt2, hloop⟩ := ih (w.os.input w.os.readPos).1 1 (afterReads h 1 w) hrest
    refine ⟨buf2, cnt2, ?_⟩
    rw [show n + 1 + fuel = (n + fuel) + 1 by omega, Pause_loop_step h _ buf cnt w h0, hloop,
      afterReads_succ]

theorem Pause_loop_nil (h : Handle) :
    ∀ (fuel : Nat) (buf : InputRecord) (cnt : Nat) (w w2 : World Console),
      Pause.loop consoleKernel h fuel buf cnt w = some (none, w2) →
      ∃ k, k < fuel ∧ w2 = afterReads h (k + 1) w ∧ (∀ i, i < k → skipped w i) ∧
        (w.os.input (w.os.readPos + k)).2 = 0 ∧ isKeyDown (w.os.input (w.os.readPos + k)).1 := by
  intro fuel
  induction fuel with
  | zero =>
    intro buf cnt w w2 hr
    simp [Pause.loop] at hr
  | succ fuel ih =>
    intro buf cnt w w2 hr
    by_cases he : (w.os.input w.os.readPos).2 = 0
    · by_cases hk : isKeyDown (w.os.input w.os.readPos).1
      · rw [Pause_loop_hit h fuel buf cnt w he hk] at hr
        simp only [Option.some.injEq, Prod.mk.injEq, true_and] at hr
        exact ⟨0, Nat.succ_pos fuel, hr.symm, fun i hi => absurd hi (Nat.not_lt_zero i),
          by simpa using he, by simpa using hk⟩
      · have h0 : skipped w 0 := ⟨by simpa using he, by simpa using hk⟩
        rw [Pause_loop_step h fuel buf cnt w h0] at hr
        obtain ⟨k, hk1, hk2, hk3, hk4, hk5⟩ := ih _ _ _ _ hr
        refine ⟨k + 1, Nat.succ_lt_succ hk1, ?_, ?_, ?_, ?_⟩
        · rw [hk2, afterReads_succ]
        · intro i hi
          cases i with
          | zero => exact h0
          | succ j =>
            have := hk3 j (Nat.lt_of_succ_lt_succ hi)
            simpa [skipped, afterReads, Nat.add_assoc, Nat.add_comm 1 j] using this
        · simpa [afterReads, Nat.add_assoc, Nat.add_comm 1 k] using hk4
        · simpa [afterReads, Nat.add_assoc, Nat.add_comm 1 k] using hk5
    · rw [Pause_loop_err h fuel buf cnt w he] at hr
      simp at hr

theorem Pause_eq_loop (h : Handle) (msg : String) (c : World Console) (fuel : Nat) :
    Pause consoleKernel fuel h msg c =
      Pause.loop consoleKernel h fuel InputRecord.zero 0 (pauseStart msg c) := by
  by_cases hm : msg = ""
  · simp [Pause, pauseStart, hm]
  · simp [Pause, pauseStart, hm, Println, consoleKernel]

theorem skipped_pauseStart (msg : String) (c : World Console) (i : Nat) :
    skipped (pauseStart msg c) i ↔ skipped c i := by
  simp [skipped, pauseStart]

/-- C8: `Pause` on a console whose next `n` reads deliver records that are not
key-down records.  If read `n` delivers a key-down record, then with any fuel
above `n` `Pause` returns nil, having printed the message exactly once before
the first read when it is non-empty and nothing when it is empty, and having
issued `n + 1` reads of one record, which consume the input up to and including
that record.  If read `n` fails instead, `Pause` returns its error.  With fuel
`n` or less the loop is still running.  And whenever `Pause` returns nil, the
last record it read is a key-down record and all the reads before it delivered
other records. -/
theorem Pause_spec (h : Handle) (msg : String) (c : World Console) (n fuel : Nat)
    (hpre : ∀ i, i < n → skipped c i) :
    ((c.os.input (c.os.readPos + n)).2 = 0 → isKeyDown (c.os.input (c.os.readPos + n)).1 →
      Pause consoleKernel (n + 1 + fuel) h msg c =
        some (none,
          { os := { c.os with
                    readPos := c.os.readPos + (n + 1),
                    stdout := c.os.stdout ++ (if msg = "" then [] else [msg]) },
            log := c.log ++ (if msg = "" then [] else [Event.Println msg]) ++
              List.replicate (n + 1) (Event.ReadConsoleInputW h 1) })) ∧
    ((c.os.input (c.os.readPos + n)).2 ≠ 0 →
      Pause consoleKernel (n + 1 + fuel) h msg c =
        some (some (c.os.input (c.os.readPos + n)).2,
          { os := { c.os with
                    readPos := c.os.readPos + (n + 1),
                    stdout := c.os.stdout ++ (if msg = "" then [] else [msg]) },
            log := c.log ++ (if msg = "" then [] else [Event.Println msg]) ++
              List.replicate (n + 1) (Event.ReadConsoleInputW h 1) })) ∧
    (∀ k, k ≤ n → Pause consoleKernel k h msg c = none) ∧
    (∀ k w2, Pause consoleKernel k h msg c = some (none, w2) →
      ∃ j, j < k ∧ (∀ i, i < j → skipped c i) ∧
        (c.os.input (c.os.readPos + j)).2 = 0 ∧ isKeyDown (c.os.input (c.os.readPos + j)).1 ∧
        w2.os.readPos = c.os.readPos + (j + 1) ∧
        w2.log = c.log ++ (if msg = "" then [] else [Event.Println msg]) ++
          List.replicate (j + 1) (Event.ReadConsoleInputW h 1)) := by
  have hpre2 : ∀ i, i < n → skipped (pauseStart msg c) i :=
    fun i hi => (skipped_pauseStart msg c i).mpr (hpre i hi)
  have hend : afterReads h 1 (afterReads h n (pauseStart msg c)) =
      { os := { c.os with
                readPos := c.os.readPos + (n + 1),
                stdout := c.os.stdout ++ (if msg = "" then [] else [msg]) },
        log := c.log ++ (if msg = "" then [] else [Event.Println msg]) ++
          List.replicate (n + 1) (Event.ReadConsoleInputW h 1) } := by
    simp [afterReads, pauseStart, List.replicate_succ', Nat.add_assoc]
  refine ⟨?_, ?_, ?_, ?_⟩
  · intro he hk
    obtain ⟨buf2, cnt2, hloop⟩ :=
      Pause_loop_skip h (fuel + 1) n InputRecord.zero 0 (pauseStart msg c) hpre2
    rw [Pause_eq_loop, show n + 1 + fuel = n + (fuel + 1) by omega, hloop,
      Pause_loop_hit h fuel buf2 cnt2 _ (by simpa [afterReads, pauseStart] using he)
        (by simpa [afterReads, pauseStart] using hk), hend]
  · intro he
    obtain ⟨buf2, cnt2, hloop⟩ :=
      Pause_loop_skip h (fuel + 1) n InputRecord.zero 0 (pauseStart msg c) hpre2
    rw [Pause_eq_loop, show n + 1 + fuel = n + (fuel + 1) by omega, hloop,
      Pause_loop_err h fuel buf2 cnt2 _ (by simpa [afterReads, pauseStart] using he), hend]
    simp [afterReads, pauseStart]
  · intro k hk
    obtain ⟨buf2, cnt2, hloop⟩ :=
      Pause_loop_skip h 0 k InputRecord.zero 0 (pauseStart msg c)
        (fun i hi => hpre2 i (Nat.lt_of_lt_of_le hi hk))
    rw [Pause_eq_loop, ← Nat.add_zero k, hloop]
    rfl
  · intro k w2 hr
    rw [Pause_eq_loop] at hr
    obtain ⟨j, hj1, hj2, hj3, hj4, hj5⟩ := Pause_loop_nil h k _ _ _ _ hr
    refine ⟨j, hj1, fun i hi => (skipped_pauseStart msg c i).mp (hj3 i hi),
      by simpa [pauseStart] using hj4, by simpa [pauseStart] using hj5, ?_, ?_⟩
    · rw [hj2]
      simp [afterReads, pauseStart]
    · rw [hj2]
      simp [afterReads, pauseStart]

/-- C8 (witness): with a resize event and a key release before the key press,
`Pause` prints its message once, reads three records and returns nil. -/
theorem Pause_spec_witness :
    (∀ i, i < 2 → skipped { os := Console.blank 80 25 Coord.zero sampleInput, log := [] } i) ∧
    (Pause consoleKernel 5 7 "Press any key"
      { os := Console.blank 80 25 Coord.zero sampleInput, log := [] }).map
        (fun r => (r.1, r.2.log, r.2.os.readPos, r.2.os.stdout)) =
      some (none,
        [Event.Println "Press any key", Event.ReadConsoleInputW 7 1,
          Event.ReadConsoleInputW 7 1, Event.ReadConsoleInputW 7 1],
        3, ["Press any key"]) := by
  have hpre : ∀ i, i < 2 →
      skipped { os := Console.blank 80 25 Coord.zero sampleInput, log := [] } i := by
    decide
  refine ⟨hpre, ?_⟩
  rw [(Pause_spec 7 "Press any key"
    { os := Console.blank 80 25 Coord.zero sampleInput, log := [] } 2 2 hpre).1
    (by decide) (by decide)]
  rfl

/-! ## Fill -/

theorem fillCells_zero (cells : List Nat) (start v : Nat) : fillCells cells start 0 v = cells := by
  simp [fillCells]

theorem FillCharacter_spec (K : Kernel32 σ) (h : Handle) (char len : Int) (c : Coord)
    (w : World σ) :
    ((FillCharacter K h char len c w).1.2 = none ↔
      (K.procFillConsoleOutputCharacter h (uintptr char) (uintptr len)
        (strutouintptr c) 0 w.os).1.errno = errorSuccess) ∧
    (FillCharacter K h char len c w).2 =
      { os := (K.procFillConsoleOutputCharacter h (uintptr char) (uintptr len)
          (strutouintptr c) 0 w.os).2,
        log := w.log ++ [Event.FillConsoleOutputCharacterW h (uintptr char) (uintptr len)
          (strutouintptr c)] } := by
  simp only [FillCharacter, World.call, Reply.lastErr, errorSuccess]
  split_ifs <;> simp_all

theorem FillAttribute_spec (K : Kernel32 σ) (h : Handle) (attr : Nat) (len : Int) (c : Coord)
    (w : World σ) :
    ((FillAttribute K h attr len c w).1.2 = none ↔
      (K.procFillConsoleOutputAttribute h attr (uintptr len)
        (strutouintptr c) 0 w.os).1.errno = errorSuccess) ∧
    (FillAttribute K h attr len c w).2 =
      { os := (K.procFillConsoleOutputAttribute h attr (uintptr len) (strutouintptr c) 0 w.os).2,
        log := w.log ++ [Event.FillConsoleOutputAttribute h attr (uintptr len)
          (strutouintptr c)] } := by
  simp only [FillAttribute, World.call, Reply.lastErr, errorSuccess]
  split_ifs <;> simp_all

/-- `Fill` in terms of the two wrappers it calls. -/
theorem Fill_eq (K : Kernel32 σ) (h : Handle) (fill : CharInfo) (len : Int) (c : Coord)
    (w : World σ) :
    Fill K h fill len c w =
      (if (FillCharacter K h (fill.UnicodeChar : Int) len c w).1.2 ≠ none then
        ((FillCharacter K h (fill.UnicodeChar : Int) len c w).1.2,
          (FillCharacter K h (fill.UnicodeChar : Int) len c w).2)
       else
        ((FillAttribute K h fill.Attributes len c
            (FillCharacter K h (fill.UnicodeChar : Int) len c w).2).1.2,
          (FillAttribute K h fill.Attributes len c
            (FillCharacter K h (fill.UnicodeChar : Int) len c w).2).2)) := by
  simp only [Fill]
  split_ifs <;> simp_all

/-- C9: `Fill` with length 0 issues the character fill and then the attribute
fill, both with a cell count of 0; when both report success it returns nil.  On
the storing console it returns nil and leaves every cell, and the whole console,
as it was. -/
theorem Fill_zero_length (K : Kernel32 σ) (h : Handle) (fill : CharInfo) (c : Coord)
    (w : World σ)
    (hchar : (K.procFillConsoleOutputCharacter h (uintptr (fill.UnicodeChar : Int)) 0
      (strutouintptr c) 0 w.os).1.errno = errorSuccess)
    (hattr : (K.procFillConsoleOutputAttribute h fill.Attributes 0 (strutouintptr c) 0
      (K.procFillConsoleOutputCharacter h (uintptr (fill.UnicodeChar : Int)) 0
        (strutouintptr c) 0 w.os).2).1.errno = errorSuccess) :
    (Fill K h fill 0 c w).1 = none ∧
    (Fill K h fill 0 c w).2.log = w.log ++
      [Event.FillConsoleOutputCharacterW h (uintptr (fill.UnicodeChar : Int)) 0 (strutouintptr c),
       Event.FillConsoleOutputAttribute h fill.Attributes 0 (strutouintptr c)] ∧
    ∀ s : World Console,
      (Fill consoleKernel h fill 0 c s).1 = none ∧
      (Fill consoleKernel h fill 0 c s).2.os = s.os ∧
      (Fill consoleKernel h fill 0 c s).2.os.chars = s.os.chars ∧
      (Fill consoleKernel h fill 0 c s).2.os.attrs = s.os.attrs := by
  have hu : uintptr 0 = 0 := by decide
  have hc := FillCharacter_spec K h (fill.UnicodeChar : Int) 0 c w
  rw [hu] at hc
  have hcn : (FillCharacter K h (fill.UnicodeChar : Int) 0 c w).1.2 = none := hc.1.mpr hchar
  have ha := FillAttribute_spec K h fill.Attributes 0 c
    (FillCharacter K h (fill.UnicodeChar : Int) 0 c w).2
  rw [hu, hc.2] at ha
  refine ⟨?_, ?_, ?_⟩
  · rw [Fill_eq, if_neg (by simpa using hcn), hc.2]
    exact ha.1.mpr hattr
  · rw [Fill_eq, if_neg (by simpa using hcn), hc.2, ha.2]
    simp
  · intro s
    have hs : (Fill consoleKernel h fill 0 c s).1 = none ∧
        (Fill consoleKernel h fill 0 c s).2.os = s.os := by
      simp [Fill, FillCharacter, FillAttribute, World.call, Reply.lastErr, errorSuccess,
        consoleKernel, hu, fillCells_zero]
    exact ⟨hs.1, hs.2, by rw [hs.2], by rw [hs.2]⟩

/-- C9 (witness): a zero-length fill at column 3, row 2 of the storing console. -/
theorem Fill_zero_length_witness :
    (Fill consoleKernel 7 { UnicodeChar := 88, Attributes := 4 } 0 { X := 3, Y := 2 }
      { os := Console.blank 80 25 Coord.zero idleInput, log := [] }).1 = none ∧
    (Fill consoleKernel 7 { UnicodeChar := 88, Attributes := 4 } 0 { X := 3, Y := 2 }
      { os := Console.blank 80 25 Coord.zero idleInput, log := [] }).2.log =
      [Event.FillConsoleOutputCharacterW 7 88 0 131075,
       Event.FillConsoleOutputAttribute 7 4 0 131075] := by
  have hw := Fill_zero_length consoleKernel 7 { UnicodeChar := 88, Attributes := 4 }
    { X := 3, Y := 2 } { os := Console.blank 80 25 Coord.zero idleInput, log := [] }
    (by rfl) (by rfl)
  exact ⟨hw.1, hw.2.1⟩

/-- C10: `Fill` is fail-fast.  If `FillCharacter` returns an error, `Fill`
returns that error, the only call it has issued is the character fill, and the
OS is in the state that call left: `FillAttribute` is not invoked.  Otherwise
`Fill` returns what `FillAttribute` returns for the same length and origin, after
both calls.  On a console that refuses the character fill with the code `e + 1`
and writes nothing, `Fill` returns that code and every attribute word is unchanged. -/
theorem Fill_fail_fast (K : Kernel32 σ) (h : Handle) (fill : CharInfo) (len : Int) (c : Coord)
    (w : World σ) :
    (Fill K h fill len c w).1 =
      (if (FillCharacter K h (fill.UnicodeChar : Int) len c w).1.2 ≠ none then
        (FillCharacter K h (fill.UnicodeChar : Int) len c w).1.2
       else (FillAttribute K h fill.Attributes len c
          (FillCharacter K h (fill.UnicodeChar : Int) len c w).2).1.2) ∧
    (Fill K h fill len c w).2.log = w.log ++
      [Event.FillConsoleOutputCharacterW h (uintptr (fill.UnicodeChar : Int)) (uintptr len)
        (strutouintptr c)] ++
      (if (FillCharacter K h (fill.UnicodeChar : Int) len c w).1.2 ≠ none then []
       else [Event.FillConsoleOutputAttribute h fill.Attributes (uintptr len)
        (strutouintptr c)]) ∧
    (Fill K h fill len c w).2.os =
      (if (FillCharacter K h (fill.UnicodeChar : Int) len c w).1.2 ≠ none then
        (K.procFillConsoleOutputCharacter h (uintptr (fill.UnicodeChar : Int)) (uintptr len)
          (strutouintptr c) 0 w.os).2
       else (K.procFillConsoleOutputAttribute h fill.Attributes (uintptr len) (strutouintptr c) 0
        (K.procFillConsoleOutputCharacter h (uintptr (fill.UnicodeChar : Int)) (uintptr len)
          (strutouintptr c) 0 w.os).2).2) ∧
    ∀ (e : Errno) (s : World Console),
      (Fill (refusingCharFill (e + 1)) h fill len c s).1 = some (e + 1) ∧
      (Fill (refusingCharFill (e + 1)) h fill len c s).2.os.attrs = s.os.attrs ∧
      (Fill (refusingCharFill (e + 1)) h fill len c s).2.os = s.os := by
  have hc := FillCharacter_spec K h (fill.UnicodeChar : Int) len c w
  have ha := FillAttribute_spec K h fill.Attributes len c
    (FillCharacter K h (fill.UnicodeChar : Int) len c w).2
  refine ⟨?_, ?_, ?_, ?_⟩
  · rw [Fill_eq]
    split_ifs <;> rfl
  · rw [Fill_eq]
    split_ifs
    · simp [hc.2]
    · rw [ha.2, hc.2]
  · rw [Fill_eq]
    split_ifs
    · simp [hc.2]
    · rw [ha.2, hc.2]
  · intro e s
    have hs : (Fill (refusingCharFill (e + 1)) h fill len c s).1 = some (e + 1) ∧
        (Fill (refusingCharFill (e + 1)) h fill len c s).2.os = s.os := by
      simp [Fill, FillCharacter, World.call, Reply.lastErr, errorSuccess, refusingCharFill]
    exact ⟨hs.1, by rw [hs.2], hs.2⟩

/-! ## SetCursorVisible and SetCursorSize -/

theorem GetCursorInfo_spec (K : Kernel32 σ) (h : Handle) (w : World σ) :
    (GetCursorInfo K h w).1 =
      (if (K.procGetConsoleCursorInfo h (CursorInfo.zero.toNative 0) w.os).1.errno = errorSuccess then (CursorInfo.ofNative (K.procGetConsoleCursorInfo h (CursorInfo.zero.toNative 0) w.os).1.out, none)
       else (CursorInfo.zero, some (K.procGetConsoleCursorInfo h (CursorInfo.zero.toNative 0) w.os).1.errno)) ∧
    (GetCursorInfo K h w).2 =
      { os := (K.procGetConsoleCursorInfo h (CursorInfo.zero.toNative 0) w.os).2, log := w.log ++ [Event.GetConsoleCursorInfo h] } := by
  simp only [GetCursorInfo, World.call, Reply.lastErr, errorSuccess]
  split_ifs <;> simp_all

theorem SetCursorInfo_spec (K : Kernel32 σ) (h : Handle) (p : CursorInfo) (pad : Nat)
    (w : World σ) :
    SetCursorInfo K h p pad w =
      ((if (K.procSetConsoleCursorInfo h (p.toNative pad) w.os).1.errno = errorSuccess then none
        else some (K.procSetConsoleCursorInfo h (p.toNative pad) w.os).1.errno),
       { os := (K.procSetConsoleCursorInfo h (p.toNative pad) w.os).2,
         log := w.log ++ [Event.SetConsoleCursorInfo h (p.toNative pad)] }) := by
  simp only [SetCursorInfo, World.call, Reply.lastErr, errorSuccess]
  split_ifs <;> simp_all

/-- What `SetCursorVisible` and `SetCursorSize` do on every OS.  When the read
fails, the read is the only call issued, the OS is in the state the read left
and the error of the read is returned.  When it succeeds, one write follows and
its result is returned; the DWORD it carries is the size read, respectively the
new size, and the BOOL it carries has the new, respectively the read, `bool` in
its low byte and the padding bytes of `curinfo` above it. -/
theorem SetCursor_calls (K : Kernel32 σ) (h : Handle) (v : Bool) (sz pad : Nat)
    (w : World σ) :
    SetCursorVisible K h v pad w =
      (if (K.procGetConsoleCursorInfo h (CursorInfo.zero.toNative 0) w.os).1.errno = errorSuccess then
        SetCursorInfo K h { Size := (K.procGetConsoleCursorInfo h (CursorInfo.zero.toNative 0) w.os).1.out.dwSize, Visible := v } pad
          { os := (K.procGetConsoleCursorInfo h (CursorInfo.zero.toNative 0) w.os).2, log := w.log ++ [Event.GetConsoleCursorInfo h] }
       else (some (K.procGetConsoleCursorInfo h (CursorInfo.zero.toNative 0) w.os).1.errno, { os := (K.procGetConsoleCursorInfo h (CursorInfo.zero.toNative 0) w.os).2, log := w.log ++ [Event.GetConsoleCursorInfo h] })) ∧
    SetCursorSize K h sz pad w =
      (if (K.procGetConsoleCursorInfo h (CursorInfo.zero.toNative 0) w.os).1.errno = errorSuccess then
        SetCursorInfo K h { Size := sz, Visible := (K.procGetConsoleCursorInfo h (CursorInfo.zero.toNative 0) w.os).1.out.bVisible % 256 != 0 } pad
          { os := (K.procGetConsoleCursorInfo h (CursorInfo.zero.toNative 0) w.os).2, log := w.log ++ [Event.GetConsoleCursorInfo h] }
       else (some (K.procGetConsoleCursorInfo h (CursorInfo.zero.toNative 0) w.os).1.errno, { os := (K.procGetConsoleCursorInfo h (CursorInfo.zero.toNative 0) w.os).2, log := w.log ++ [Event.GetConsoleCursorInfo h] })) := by
  have hg := GetCursorInfo_spec K h w
  constructor
  · simp only [SetCursorVisible]
    by_cases hok : (K.procGetConsoleCursorInfo h (CursorInfo.zero.toNative 0) w.os).1.errno = errorSuccess
    · have h1 : (GetCursorInfo K h w).1 = (CursorInfo.ofNative (K.procGetConsoleCursorInfo h (CursorInfo.zero.toNative 0) w.os).1.out, none) := by
        rw [hg.1, if_pos hok]
      rw [if_pos hok, h1, hg.2]
      simp [CursorInfo.ofNative]
    · have h1 : (GetCursorInfo K h w).1 = (CursorInfo.zero, some (K.procGetConsoleCursorInfo h (CursorInfo.zero.toNative 0) w.os).1.errno) := by
        rw [hg.1, if_neg hok]
      rw [if_neg hok, h1, hg.2]
      simp
  · simp only [SetCursorSize]
    by_cases hok : (K.procGetConsoleCursorInfo h (CursorInfo.zero.toNative 0) w.os).1.errno = errorSuccess
    · have h1 : (GetCursorInfo K h w).1 = (CursorInfo.ofNative (K.procGetConsoleCursorInfo h (CursorInfo.zero.toNative 0) w.os).1.out, none) := by
        rw [hg.1, if_pos hok]
      rw [if_pos hok, h1, hg.2]
      simp [CursorInfo.ofNative]
    · have h1 : (GetCursorInfo K h w).1 = (CursorInfo.zero, some (K.procGetConsoleCursorInfo h (CursorInfo.zero.toNative 0) w.os).1.errno) := by
        rw [hg.1, if_neg hok]
      rw [if_neg hok, h1, hg.2]
      simp

/-- On the storing console both functions return nil and the size stored is the
one asked for; the cursor is stored as visible when the `bool` written is true
or a padding byte of `curinfo` is not zero. -/
theorem SetCursor_console (h : Handle) (v : Bool) (sz pad : Nat) (c : World Console) :
    (SetCursorVisible consoleKernel h v pad c).1 = none ∧
    (SetCursorVisible consoleKernel h v pad c).2.os =
      { c.os with curinfo := { Size := c.os.curinfo.Size, Visible := v || pad != 0 } } ∧
    (SetCursorSize consoleKernel h sz pad c).1 = none ∧
    (SetCursorSize consoleKernel h sz pad c).2.os =
      { c.os with curinfo := { Size := sz, Visible := c.os.curinfo.Visible || pad != 0 } } := by
  have hb : ∀ b : Bool, (((if b = true then 1 else 0) + 256 * pad != 0) : Bool) =
      (b || pad != 0) := by
    intro b
    by_cases hp : pad = 0
    · cases b <;> simp [hp]
    · have e0 : (256 * pad != 0) = true := bne_iff_ne.mpr (by omega)
      have e1 : (1 + 256 * pad != 0) = true := bne_iff_ne.mpr (by omega)
      have e2 : (pad != 0) = true := bne_iff_ne.mpr hp
      cases b
      · simp only [Bool.false_eq_true, if_false, Nat.zero_add, e0, e2, Bool.or_true]
      · simp only [if_true, e1, e2, Bool.or_true]
  have hr : ∀ b : Bool, (((if b = true then 1 else 0) % 256 != 0) : Bool) = b := by
    intro b
    cases b <;> rfl
  refine ⟨?_, ?_, ?_, ?_⟩
  · simp [SetCursorVisible, GetCursorInfo, SetCursorInfo, World.call, Reply.lastErr,
      errorSuccess, consoleKernel]
  · simp [SetCursorVisible, GetCursorInfo, SetCursorInfo, World.call, Reply.lastErr,
      errorSuccess, consoleKernel, CursorInfo.toNative, CursorInfo.ofNative, hb]
  · simp [SetCursorSize, GetCursorInfo, SetCursorInfo, World.call, Reply.lastErr,
      errorSuccess, consoleKernel]
  · simp only [SetCursorSize, GetCursorInfo, SetCursorInfo, World.call, Reply.lastErr,
      errorSuccess, consoleKernel, CursorInfo.toNative, CursorInfo.ofNative, hr, hb]
    simp

/-- C11 (the code at the failing input): the console shows a cursor of size 25
and the three padding bytes of `curinfo` hold 0xFF each.  `SetCursorVisible(h, false)`
returns nil after a write whose BOOL is 0xFFFFFF00, which is not zero, so that
the console keeps the cursor visible; and on a console whose cursor is hidden,
`SetCursorSize(h, 50)` returns nil, stores the size 50 and makes the cursor
visible.  The field `Visible` is a one-byte `bool` where the OS reads a
four-byte BOOL. -/
theorem SetCursorVisible_padding_in_BOOL :
    (SetCursorVisible consoleKernel 7 false 16777215
      { os := Console.blank 80 25 Coord.zero idleInput, log := [] }).1 = none ∧
    (SetCursorVisible consoleKernel 7 false 16777215
      { os := Console.blank 80 25 Coord.zero idleInput, log := [] }).2.log =
      [Event.GetConsoleCursorInfo 7,
       Event.SetConsoleCursorInfo 7 { dwSize := 25, bVisible := 4294967040 }] ∧
    (Console.blank 80 25 Coord.zero idleInput).curinfo = { Size := 25, Visible := true } ∧
    (SetCursorVisible consoleKernel 7 false 16777215
      { os := Console.blank 80 25 Coord.zero idleInput, log := [] }).2.os.curinfo =
      { Size := 25, Visible := true } ∧
    (SetCursorSize consoleKernel 7 50 16777215
      { os := { Console.blank 80 25 Coord.zero idleInput with
                curinfo := { Size := 25, Visible := false } },
        log := [] }).1 = none ∧
    (SetCursorSize consoleKernel 7 50 16777215
      { os := { Console.blank 80 25 Coord.zero idleInput with
                curinfo := { Size := 25, Visible := false } },
        log := [] }).2.os.curinfo = { Size := 50, Visible := true } := by
  refine ⟨by rfl, by rfl, by rfl, by rfl, by rfl, by rfl⟩

/-! ## IsEnableMode -/

theorem and_ne_zero_iff (m d : Nat) :
    m &&& d ≠ 0 ↔ ∃ i, m.testBit i = true ∧ d.testBit i = true := by
  constructor
  · intro hne
    obtain ⟨i, hi⟩ := Nat.ne_zero_implies_bit_true hne
    rw [Nat.testBit_and, Bool.and_eq_true] at hi
    exact ⟨i, hi⟩
  · rintro ⟨i, hm, hd⟩ h0
    have hi : (m &&& d).testBit i = true := by
      rw [Nat.testBit_and, hm, hd]
      rfl
    rw [h0, Nat.zero_testBit] at hi
    exact Bool.false_ne_true hi

theorem and_two_pow_ne_zero_iff (m k : Nat) : m &&& 2 ^ k ≠ 0 ↔ m.testBit k = true := by
  rw [and_ne_zero_iff]
  constructor
  · rintro ⟨i, hm, hd⟩
    rw [Nat.testBit_two_pow, decide_eq_true_eq] at hd
    rw [hd]
    exact hm
  · intro hm
    exact ⟨k, hm, Nat.testBit_two_pow_self⟩

theorem or_two_pow_eq_iff (m k : Nat) : m ||| 2 ^ k = m ↔ m.testBit k = true := by
  constructor
  · intro h
    have hk : (m ||| 2 ^ k).testBit k = m.testBit k := by rw [h]
    rw [Nat.testBit_or, Nat.testBit_two_pow_self, Bool.or_true] at hk
    exact hk.symm
  · intro hm
    apply Nat.eq_of_testBit_eq
    intro i
    rw [Nat.testBit_or, Nat.testBit_two_pow]
    by_cases hki : k = i
    · subst hki
      simp [hm]
    · simp [hki]

theorem or_and_self (m d : Nat) : (m ||| d) &&& d = d := by
  apply Nat.eq_of_testBit_eq
  intro i
  rw [Nat.testBit_and, Nat.testBit_or]
  cases m.testBit i <;> cases d.testBit i <;> rfl

theorem DWord_IsEnableMode_iff (mode : Nat) (flag : Int) :
    DWord.IsEnableMode mode flag = true ↔ mode &&& DWord flag ≠ 0 := by
  simp [DWord.IsEnableMode]

/-- The handle-level `IsEnableMode` in terms of the answer to the read. -/
theorem IsEnableMode_eq (K : Kernel32 σ) (h : Handle) (flag : Int) (w : World σ) :
    IsEnableMode K h flag w =
      ((if (K.procGetConsoleMode h 0 w.os).1.errno = errorSuccess then
          DWord.IsEnableMode (K.procGetConsoleMode h 0 w.os).1.out flag
        else false),
       { os := (K.procGetConsoleMode h 0 w.os).2, log := w.log ++ [Event.GetConsoleMode h] }) := by
  simp only [IsEnableMode, GetMode, World.call, Reply.lastErr, errorSuccess, DWord.IsEnableMode]
  split_ifs <;> simp_all

/-- C12 (counterexample): the test is "some bit of the flag is set in the mode".
With mode 1 and flag 3 it answers true although enabling the flag changes the
mode (1 | 3 = 3); with flag 0 it answers false although enabling it changes
nothing, also right after a successful `EnableMode(h, 0)` on the storing console. -/
theorem IsEnableMode_not_all_bits :
    (DWord.IsEnableMode 1 3 = true ∧ (1 : Nat) ||| DWord 3 ≠ 1) ∧
    (DWord.IsEnableMode 1 0 = false ∧ (1 : Nat) ||| DWord 0 = 1) ∧
    (EnableMode consoleKernel 7 [0]
      { os := Console.blank 80 25 Coord.zero idleInput, log := [] }).1 = none ∧
    (IsEnableMode consoleKernel 7 0
      (EnableMode consoleKernel 7 [0]
        { os := Console.blank 80 25 Coord.zero idleInput, log := [] }).2).1 = false := by
  refine ⟨by decide, by decide, by rfl, by rfl⟩

/-- C12 (amended): `mode.IsEnableMode(flag)` is true exactly when the mode and
`DWord(flag)` have a set bit in common.  When `DWord(flag)` is a single bit this
is exactly when enabling the flag would change nothing, `mode | DWord(flag) = mode`;
for any flag with `DWord(flag) ≠ 0`, a mode that enabling leaves unchanged makes
it true.  After `EnableMode(h, flag)` on the storing console, which returns nil,
`IsEnableMode(h, flag)` is true provided `DWord(flag) ≠ 0`.  The handle-level
`IsEnableMode` issues one read, answers false when the read fails and applies
the test to the mode read otherwise. -/
theorem IsEnableMode_spec (K : Kernel32 σ) (h : Handle) (flag : Int) (w : World σ)
    (mode : Nat) :
    (DWord.IsEnableMode mode flag = true ↔
      ∃ i, mode.testBit i = true ∧ (DWord flag).testBit i = true) ∧
    (∀ k, DWord flag = 2 ^ k →
      (DWord.IsEnableMode mode flag = true ↔ mode ||| DWord flag = mode)) ∧
    (DWord flag ≠ 0 → mode ||| DWord flag = mode → DWord.IsEnableMode mode flag = true) ∧
    (∀ c : World Console, DWord flag ≠ 0 →
      (EnableMode consoleKernel h [flag] c).1 = none ∧
      (IsEnableMode consoleKernel h flag (EnableMode consoleKernel h [flag] c).2).1 = true) ∧
    IsEnableMode K h flag w =
      ((if (K.procGetConsoleMode h 0 w.os).1.errno = errorSuccess then
          DWord.IsEnableMode (K.procGetConsoleMode h 0 w.os).1.out flag
        else false),
       { os := (K.procGetConsoleMode h 0 w.os).2,
         log := w.log ++ [Event.GetConsoleMode h] }) := by
  refine ⟨?_, ?_, ?_, ?_, IsEnableMode_eq K h flag w⟩
  · rw [DWord_IsEnableMode_iff, and_ne_zero_iff]
  · intro k hk
    rw [DWord_IsEnableMode_iff, hk, and_two_pow_ne_zero_iff, or_two_pow_eq_iff]
  · intro hne hor
    rw [DWord_IsEnableMode_iff, ← hor, or_and_self]
    exact hne
  · intro c hne
    refine ⟨(EnableMode_console h [flag] c).1, ?_⟩
    rw [IsEnableMode_eq, (EnableMode_console h [flag] c).2]
    have hgo : (DWord.IsEnableMode (c.os.mode ||| DWord flag) flag) = true := by
      rw [DWord_IsEnableMode_iff, or_and_self]
      exact hne
    simpa [consoleKernel, errorSuccess, enabledMode] using hgo

/-- C12 (witness): the flag 4 is the single bit 2; mode 7 has it, and so has the
storing console after `EnableMode(h, 4)`. -/
theorem IsEnableMode_spec_witness :
    DWord 4 = 2 ^ 2 ∧
    (DWord.IsEnableMode 7 4 = true ↔ (7 : Nat) ||| DWord 4 = 7) ∧
    (IsEnableMode consoleKernel 7 4
      (EnableMode consoleKernel 7 [4]
        { os := Console.blank 80 25 Coord.zero idleInput, log := [] }).2).1 = true :=
  ⟨by decide,
   (IsEnableMode_spec consoleKernel 7 4
      { os := Console.blank 80 25 Coord.zero idleInput, log := [] } 7).2.1 2 (by decide),
   ((IsEnableMode_spec consoleKernel 7 4
      { os := Console.blank 80 25 Coord.zero idleInput, log := [] } 7).2.2.2.1
      { os := Console.blank 80 25 Coord.zero idleInput, log := [] } (by decide)).2⟩

/-! ## Standard-stream selectors -/

/-- C13: the selectors `StdInputHandle`, `StdOutputHandle` and `StdErrorHandle`,
computed as `^uint32(n) + 1`, are 4294967286, 4294967285 and 4294967284, the
32-bit two's-complement encodings of -10, -11 and -12; they are pairwise
distinct and none of them is `invalidHandle`. -/
theorem StdHandle_constants :
    (StdInputHandle = 4294967286 ∧ StdOutputHandle = 4294967285 ∧
      StdErrorHandle = 4294967284) ∧
    (StdInputHandle = ((4294967295 ^^^ 10) + 1) % 4294967296 ∧
      StdOutputHandle = ((4294967295 ^^^ 11) + 1) % 4294967296 ∧
      StdErrorHandle = ((4294967295 ^^^ 12) + 1) % 4294967296) ∧
    (StdInputHandle = DWord (-10) ∧ StdOutputHandle = DWord (-11) ∧
      StdErrorHandle = DWord (-12)) ∧
    (StdInputHandle ≠ StdOutputHandle ∧ StdInputHandle ≠ StdErrorHandle ∧
      StdOutputHandle ≠ StdErrorHandle) ∧
    (StdInputHandle ≠ invalidHandle ∧ StdOutputHandle ≠ invalidHandle ∧
      StdErrorHandle ≠ invalidHandle) := by
  refine ⟨by decide, by decide, by decide, by decide, by decide⟩

/-! ## strutouintptr -/

/-- The word of `strutouintptr` is the `int32` read from the memory of the `Coord`,
converted to `uintptr`. -/
theorem strutouintptr_eq_read (c : Coord) :
    strutouintptr c = uintptr (int32OfBytes c.bytes) := by
  obtain ⟨x, y⟩ := c
  simp only [strutouintptr, Coord.bytes, int16Bytes, int32OfBytes, List.cons_append,
    List.nil_append, uintptr, wrap32]
  omega

theorem strutouintptr_low32 (c : Coord) :
    strutouintptr c % 4294967296 = (c.X % 65536).toNat + 65536 * (c.Y % 65536).toNat := by
  obtain ⟨x, y⟩ := c
  simp only [strutouintptr, uintptr, wrap32]
  omega

/-- C14: the word that `strutouintptr` makes of a `Coord` is the `int32` read from
its four bytes of memory, sign-extended to `uintptr`.  Bits 0–15 of the word are
X and bits 16–31 are Y, each as an unsigned 16-bit value; the bits above are
all ones when Y is negative and all zeros otherwise.  The `Coord` is recovered
from the low 32 bits, so two `Coord`s that agree on them are equal; and it is
this word that `SetCursorPosition` passes. -/
theorem strutouintptr_layout (K : Kernel32 σ) (h : Handle) (w : World σ) (c : Coord)
    (hc : c.InRange) :
    strutouintptr c = uintptr (int32OfBytes c.bytes) ∧
    strutouintptr c % 65536 = (c.X % 65536).toNat ∧
    strutouintptr c / 65536 % 65536 = (c.Y % 65536).toNat ∧
    strutouintptr c / 4294967296 = (if c.Y < 0 then 4294967295 else 0) ∧
    coordOfWord (strutouintptr c % 4294967296) = c ∧
    (∀ c2 : Coord, c2.InRange →
      strutouintptr c2 % 4294967296 = strutouintptr c % 4294967296 → c2 = c) ∧
    (SetCursorPosition K h c w).2.log =
      w.log ++ [Event.SetConsoleCursorPosition h (strutouintptr c)] := by
  have hlow := strutouintptr_low32 c
  refine ⟨strutouintptr_eq_read c, ?_, ?_, ?_, ?_, ?_, ?_⟩
  · omega
  · omega
  · obtain ⟨x, y⟩ := c
    simp only [Coord.InRange] at hc
    simp only [strutouintptr, uintptr, wrap32]
    split_ifs <;> omega
  · obtain ⟨x, y⟩ := c
    simp only [Coord.InRange] at hc
    simp only [coordOfWord, wrap16, Coord.mk.injEq]
    simp only at hlow
    constructor <;> omega
  · intro c2 hc2 heq
    have hlow2 := strutouintptr_low32 c2
    obtain ⟨x, y⟩ := c
    obtain ⟨x2, y2⟩ := c2
    simp only [Coord.InRange] at hc hc2
    simp only at hlow hlow2
    simp only [Coord.mk.injEq]
    constructor <;> omega
  · simp only [SetCursorPosition, World.call]
    split_ifs <;> rfl

/-- C14 (witness): the coordinate (-1, -2) becomes the word 0xFFFFFFFFFFFEFFFF,
whose low 32 bits hold 0xFFFF and 0xFFFE. -/
theorem strutouintptr_layout_witness :
    Coord.InRange { X := -1, Y := -2 } ∧
    strutouintptr { X := -1, Y := -2 } = 18446744073709486079 ∧
    strutouintptr { X := -1, Y := -2 } % 65536 = 65535 ∧
    strutouintptr { X := -1, Y := -2 } / 65536 % 65536 = 65534 ∧
    coordOfWord (strutouintptr { X := -1, Y := -2 } % 4294967296) = { X := -1, Y := -2 } :=
  ⟨by decide, by decide,
   (strutouintptr_layout (constKernel 1 0) 7 { os := (), log := [] } { X := -1, Y := -2 }
      (by decide)).2.1,
   (strutouintptr_layout (constKernel 1 0) 7 { os := (), log := [] } { X := -1, Y := -2 }
      (by decide)).2.2.1,
   (strutouintptr_layout (constKernel 1 0) 7 { os := (), log := [] } { X := -1, Y := -2 }
      (by decide)).2.2.2.2.1⟩

end Cons
